import Mathlib

/-!
Shallow embedding of the task-tracking view-state controller
(src/unnamed/part_000, the `App` component).

The component keeps a flat in-memory state (task list, form inputs, a
loading flag, an error banner, search query, status filter) and mutates it
only in response to confirmed API responses.  Each async handler is embedded
as a pure state transformer that takes the awaited network outcome as an
explicit `Option` argument: `some v` models a response with `response.ok`
true and parsed JSON body `v`; `none` models a network error or a
non-success status (both reach the same `catch` branch in the source).
String helpers from JavaScript (`trim`, `toLowerCase`, `includes`) are
embedded as character-list functions so that every definition evaluates
inside the kernel.
-/

namespace TaskMaster

/-- JavaScript `String.prototype.trim`: removes leading and trailing
whitespace characters. -/
def jsTrim (s : String) : String :=
  ⟨((s.data.dropWhile Char.isWhitespace).reverse.dropWhile Char.isWhitespace).reverse⟩

/-- JavaScript `String.prototype.toLowerCase`: lower-cases every character. -/
def jsToLower (s : String) : String :=
  ⟨s.data.map Char.toLower⟩

/-- JavaScript `hay.includes(needle)`: `needle` occurs in `hay` as a
contiguous substring. -/
def strIncludes (hay needle : String) : Bool :=
  (List.range (hay.data.length + 1)).any (fun i => List.isPrefixOf needle.data (hay.data.drop i))

/-- A task record as exchanged with the REST collaborator and held in the
`tasks` state: JSON shape `id, title, description, priority, completed,
createdAt` (priority is one of the strings low/medium/high). -/
structure Task where
  id : Nat
  title : String
  description : String
  priority : String
  completed : Bool
  createdAt : Nat
  deriving DecidableEq, Repr

/-- The component state: the `useState` hooks of `App`
(src/unnamed/part_000 lines 15-24). -/
structure AppState where
  tasks : List Task
  title : String
  description : String
  priority : String
  loading : Bool
  error : String
  searchQuery : String
  filterStatus : String
  deriving DecidableEq, Repr

/-- First phase of `fetchTasks` (line 46): `setLoading(true)` before the
request is issued. -/
def fetchTasksStart (s : AppState) : AppState :=
  { s with loading := true }

/-- Remainder of `fetchTasks` (lines 47-61) after the response arrives:
on success replace the collection with the response body and clear the
error; on failure set the backend-unreachable banner; either way the
`finally` block clears the loading flag. -/
def fetchTasksFinish (s : AppState) (resp : Option (List Task)) : AppState :=
  match resp with
  | some data => { s with tasks := data, error := "", loading := false }
  | none => { s with error := "⚠️ Backend not running. Start the server!", loading := false }

/-- The whole `fetchTasks` handler (lines 44-62). -/
def fetchTasks (s : AppState) (resp : Option (List Task)) : AppState :=
  fetchTasksFinish (fetchTasksStart s) resp

/-- The `addTask` handler (lines 64-104).  The returned `Bool` records
whether a network request was issued.  The guard mirrors
`!title.trim() || !description.trim()` (empty strings are falsy); a
successful POST prepends the parsed response, resets the three form fields
and clears the error; a failed one only sets the error banner; both network
paths end with `setLoading(false)` from the `finally` block. -/
def addTask (s : AppState) (resp : Option Task) : AppState × Bool :=
  if jsTrim s.title = "" ∨ jsTrim s.description = "" then
    ({ s with error := "⚠️ Please fill in both fields" }, false)
  else
    match resp with
    | some newTask =>
        ({ s with tasks := newTask :: s.tasks, title := "", description := "",
                  priority := "medium", error := "", loading := false }, true)
    | none => ({ s with error := "❌ Failed to add task", loading := false }, true)

/-- The `toggleTask` handler (lines 106-124): on success
`tasks.map(task => task.id === id ? updatedTask : task)`; on failure only
the error banner is set.  Neither path touches the loading flag, and the
success path does not touch the error banner. -/
def toggleTask (s : AppState) (id : Nat) (resp : Option Task) : AppState :=
  match resp with
  | some updatedTask =>
      { s with tasks := s.tasks.map (fun task => if task.id = id then updatedTask else task) }
  | none => { s with error := "❌ Failed to update task" }

/-- The `deleteTask` handler (lines 126-142): on success
`tasks.filter(task => task.id !== id)` and `setError('')`; on failure only
the error banner is set. -/
def deleteTask (s : AppState) (id : Nat) (resp : Option Unit) : AppState :=
  match resp with
  | some _ => { s with tasks := s.tasks.filter (fun task => task.id != id), error := "" }
  | none => { s with error := "❌ Failed to delete task" }

/-- The search half of the filter predicate (lines 150-151): case-insensitive
substring match of the query against title or description. -/
def matchesSearch (task : Task) (searchQuery : String) : Bool :=
  strIncludes (jsToLower task.title) (jsToLower searchQuery) ||
    strIncludes (jsToLower task.description) (jsToLower searchQuery)

/-- The status half of the filter predicate (lines 153-155). -/
def matchesFilter (task : Task) (filterStatus : String) : Bool :=
  filterStatus == "all" ||
    (filterStatus == "active" && !task.completed) ||
    (filterStatus == "completed" && task.completed)

/-- The derived `filteredTasks` value (lines 149-158). -/
def filteredTasks (tasks : List Task) (searchQuery filterStatus : String) : List Task :=
  tasks.filter (fun task => matchesSearch task searchQuery && matchesFilter task filterStatus)

/-- The derived statistics object (lines 161-166). -/
structure TaskStats where
  total : Nat
  completed : Nat
  active : Nat
  highPriority : Nat
  deriving DecidableEq, Repr

/-- The `stats` computation (lines 161-166). -/
def stats (tasks : List Task) : TaskStats :=
  { total := tasks.length
    completed := (tasks.filter (fun t => t.completed)).length
    active := (tasks.filter (fun t => !t.completed)).length
    highPriority := (tasks.filter (fun t => t.priority == "high" && !t.completed)).length }

/-- The `completionPercentage` value (lines 168-170): guarded division, then
`Math.round`, embedded for non-negative arguments as `⌊x + 1/2⌋` over ℚ. -/
def completionPercentage (tasks : List Task) : ℤ :=
  if (stats tasks).total > 0 then
    ⌊(((stats tasks).completed : ℚ) / ((stats tasks).total : ℚ)) * 100 + 1 / 2⌋
  else 0

/-- Rendering of the spec sentence for the visible subset, to be compared
with `filteredTasks`: keep exactly the tasks whose lower-cased title or
lower-cased description contains the lower-cased query as a substring and
whose completed flag matches the status (all: any; active: not completed;
completed: completed). -/
def visibleSubsetSpec (tasks : List Task) (q st : String) : List Task :=
  tasks.filter (fun t =>
    (strIncludes (jsToLower t.title) (jsToLower q) ||
      strIncludes (jsToLower t.description) (jsToLower q)) &&
    (if st == "active" then !t.completed
     else if st == "completed" then t.completed
     else true))

/-- Sample task used in concrete scenarios: title "Alpha", not completed. -/
def tAlpha : Task :=
  { id := 1, title := "Alpha", description := "first", priority := "high",
    completed := false, createdAt := 0 }

/-- Sample task used in concrete scenarios: title "Beta", not completed. -/
def tBeta : Task :=
  { id := 2, title := "Beta", description := "second", priority := "low",
    completed := false, createdAt := 0 }

/-- Sample server response record for toggle scenarios. -/
def u0 : Task :=
  { id := 7, title := "T", description := "D", priority := "low",
    completed := true, createdAt := 0 }

/-- Sample state carrying a stale error banner, used to exercise the
error-clearing behaviour. -/
def errState : AppState :=
  { tasks := [{ id := 7, title := "T", description := "D", priority := "medium",
                completed := false, createdAt := 0 }],
    title := "t", description := "d", priority := "medium",
    loading := false, error := "previous failure",
    searchQuery := "", filterStatus := "all" }

/-- Sample state whose title is whitespace only, used to exercise the
validation branch of `addTask`. -/
def blankTitleState : AppState :=
  { tasks := [tAlpha], title := "  ", description := "something",
    priority := "high", loading := false, error := "",
    searchQuery := "", filterStatus := "all" }

/-- Helper: the two completion-status filters partition the collection. -/
lemma filter_length_partition (l : List Task) :
    (l.filter fun t => !t.completed).length + (l.filter fun t => t.completed).length
      = l.length := by
  induction l with
  | nil => rfl
  | cons t ts ih => cases hc : t.completed <;> simp [List.filter_cons, hc] <;> omega

/-- C1: over every task collection, the derived statistics satisfy
`active + completed = total` and `highPriority ≤ active`, where `total` is
the collection length, `completed` and `active` count the records with the
completed flag set and unset, and `highPriority` counts the records with
priority "high" and completed flag unset. -/
theorem stats_invariant (tasks : List Task) :
    (stats tasks).active + (stats tasks).completed = (stats tasks).total ∧
    (stats tasks).highPriority ≤ (stats tasks).active := by
  constructor
  · simpa [stats] using filter_length_partition tasks
  · simp only [stats]
    rw [← List.countP_eq_length_filter, ← List.countP_eq_length_filter]
    exact List.countP_mono_left (fun x _ h => by
      simp only [Bool.and_eq_true] at h
      exact h.2)

/-- C2: when the title or the description is empty after trimming, `addTask`
issues no network call, sets the validation-error banner, and leaves the
task collection, the title input, the description input, the priority
selection, and the loading flag unchanged. -/
theorem addTask_rejects_blank (s : AppState) (resp : Option Task)
    (h : jsTrim s.title = "" ∨ jsTrim s.description = "") :
    (addTask s resp).2 = false ∧
    (addTask s resp).1.tasks = s.tasks ∧
    (addTask s resp).1.title = s.title ∧
    (addTask s resp).1.description = s.description ∧
    (addTask s resp).1.priority = s.priority ∧
    (addTask s resp).1.loading = s.loading ∧
    (addTask s resp).1.error = "⚠️ Please fill in both fields" := by
  unfold addTask
  rw [if_pos h]
  exact ⟨rfl, rfl, rfl, rfl, rfl, rfl, rfl⟩

/-- Witness for C2: a state whose title is whitespace only is rejected
exactly as `addTask_rejects_blank` states. -/
theorem addTask_rejects_blank_witness :
    (addTask blankTitleState none).2 = false ∧
    (addTask blankTitleState none).1.tasks = blankTitleState.tasks ∧
    (addTask blankTitleState none).1.title = blankTitleState.title ∧
    (addTask blankTitleState none).1.description = blankTitleState.description ∧
    (addTask blankTitleState none).1.priority = blankTitleState.priority ∧
    (addTask blankTitleState none).1.loading = blankTitleState.loading ∧
    (addTask blankTitleState none).1.error = "⚠️ Please fill in both fields" :=
  addTask_rejects_blank blankTitleState none (Or.inl (by decide))

/-- C5: a successful create with non-empty trimmed title and description
prepends the server record to the collection (the tail being exactly the
previous collection), clears the title and description inputs, clears the
error banner, and did issue a network call. -/
theorem addTask_success_prepends (s : AppState) (nt : Task)
    (ht : ¬ jsTrim s.title = "") (hd : ¬ jsTrim s.description = "") :
    (addTask s (some nt)).1.tasks = nt :: s.tasks ∧
    (addTask s (some nt)).1.title = "" ∧
    (addTask s (some nt)).1.description = "" ∧
    (addTask s (some nt)).1.error = "" ∧
    (addTask s (some nt)).2 = true := by
  have hn : ¬ (jsTrim s.title = "" ∨ jsTrim s.description = "") := by tauto
  unfold addTask
  rw [if_neg hn]
  exact ⟨rfl, rfl, rfl, rfl, rfl⟩

/-- Witness for C5: a concrete valid submission is accepted exactly as
`addTask_success_prepends` states. -/
theorem addTask_success_prepends_witness :
    (addTask errState (some u0)).1.tasks = u0 :: errState.tasks ∧
    (addTask errState (some u0)).1.title = "" ∧
    (addTask errState (some u0)).1.description = "" ∧
    (addTask errState (some u0)).1.error = "" ∧
    (addTask errState (some u0)).2 = true :=
  addTask_success_prepends errState u0 (by decide) (by decide)

/-- C4: a successful toggle keeps the collection length, and position by
position leaves every record whose id differs from the argument unchanged
while every record whose id matches is replaced by the server's record
verbatim; a failed toggle leaves the collection unchanged. -/
theorem toggleTask_replaces (s : AppState) (id : Nat) (u : Task) :
    (toggleTask s id (some u)).tasks.length = s.tasks.length ∧
    (∀ n : Nat, ((toggleTask s id (some u)).tasks)[n]? =
        Option.map (fun t => if t.id = id then u else t) s.tasks[n]?) ∧
    (toggleTask s id none).tasks = s.tasks := by
  refine ⟨by simp [toggleTask], fun n => ?_, rfl⟩
  simp [toggleTask, List.getElem?_map]

/-- C9: a successful delete keeps exactly the records whose id differs from
the argument (so no record with that id remains), in their original order
(the result is a sublist of the original), and clears the error banner; a
failed delete leaves the collection unchanged. -/
theorem deleteTask_removes (s : AppState) (id : Nat) :
    (∀ t : Task, t ∈ (deleteTask s id (some ())).tasks ↔ t ∈ s.tasks ∧ t.id ≠ id) ∧
    ((deleteTask s id (some ())).tasks).Sublist s.tasks ∧
    (deleteTask s id (some ())).error = "" ∧
    (deleteTask s id none).tasks = s.tasks := by
  refine ⟨fun t => ?_, ?_, rfl, rfl⟩
  · simp [deleteTask, List.mem_filter, bne_iff_ne]
  · exact List.filter_sublist s.tasks

/-- C8: the load operation sets the loading flag before the request, clears
it after the response on the success path and on the failure path alike,
and on failure leaves the collection unchanged and sets the
backend-unreachable banner. -/
theorem fetchTasks_loading_and_failure (s : AppState) (resp : Option (List Task)) :
    (fetchTasksStart s).loading = true ∧
    (fetchTasks s resp).loading = false ∧
    (fetchTasks s none).tasks = s.tasks ∧
    (fetchTasks s none).error = "⚠️ Backend not running. Start the server!" := by
  refine ⟨rfl, ?_, rfl, rfl⟩
  cases resp <;> rfl

/-- Counterexample to C3: starting from a state whose error banner is
non-empty, a successful toggle leaves the banner non-empty, so not every
successful operation clears the error state. -/
theorem toggle_success_keeps_error_counterexample :
    (toggleTask errState 7 (some u0)).error ≠ "" := by decide

/-- C3 amended: from every state, a successful load or delete clears the
error banner, a successful create (its inputs non-blank after trimming, so
that the network path runs) clears the error banner, while a successful
toggle leaves the error banner exactly as it was. -/
theorem successful_ops_clear_error (s : AppState) (data : List Task) (nt u : Task)
    (id : Nat) :
    (fetchTasks s (some data)).error = "" ∧
    (¬ jsTrim s.title = "" → ¬ jsTrim s.description = "" →
      (addTask s (some nt)).1.error = "") ∧
    (deleteTask s id (some ())).error = "" ∧
    (toggleTask s id (some u)).error = s.error := by
  refine ⟨rfl, ?_, rfl, rfl⟩
  intro ht hd
  have hn : ¬ (jsTrim s.title = "" ∨ jsTrim s.description = "") := by tauto
  unfold addTask
  rw [if_neg hn]

/-- Witness for the amended C3 at a concrete state with a stale error and a
non-blank form. -/
theorem successful_ops_clear_error_witness :
    (fetchTasks errState (some [])).error = "" ∧
    (addTask errState (some u0)).1.error = "" ∧
    (deleteTask errState 7 (some ())).error = "" ∧
    (toggleTask errState 7 (some u0)).error = errState.error :=
  ⟨(successful_ops_clear_error errState [] u0 u0 7).1,
   (successful_ops_clear_error errState [] u0 u0 7).2.1 (by decide) (by decide),
   (successful_ops_clear_error errState [] u0 u0 7).2.2.1,
   (successful_ops_clear_error errState [] u0 u0 7).2.2.2⟩

/-- C6: the filter is idempotent (applying it to its own output returns the
output unchanged) and commutative (restricting by the search predicate then
the status predicate gives the same list as the other order), and either
order equals the combined `filteredTasks`. -/
theorem filteredTasks_idem_comm (tasks : List Task) (q st : String) :
    filteredTasks (filteredTasks tasks q st) q st = filteredTasks tasks q st ∧
    ((tasks.filter fun t => matchesSearch t q).filter fun t => matchesFilter t st) =
      ((tasks.filter fun t => matchesFilter t st).filter fun t => matchesSearch t q) ∧
    ((tasks.filter fun t => matchesSearch t q).filter fun t => matchesFilter t st) =
      filteredTasks tasks q st := by
  refine ⟨?_, ?_, ?_⟩
  · unfold filteredTasks
    rw [List.filter_filter]
    exact List.filter_congr (fun x _ => Bool.and_self _)
  · rw [List.filter_filter, List.filter_filter]
    exact List.filter_congr (fun x _ => Bool.and_comm _ _)
  · rw [List.filter_filter]
    unfold filteredTasks
    exact List.filter_congr (fun x _ => Bool.and_comm _ _)

/-- C7: for each of the three status values the visible subset computed by
the code equals the subset described by the spec (case-insensitive
substring match on title or description, completed flag matching the
status, original order kept); concretely, query "a" over titles
"Alpha"/"Beta" keeps both, and status "completed" over an all-incomplete
collection keeps nothing. -/
theorem filteredTasks_matches_spec (tasks : List Task) (q st : String)
    (h : st = "all" ∨ st = "active" ∨ st = "completed") :
    filteredTasks tasks q st = visibleSubsetSpec tasks q st ∧
    filteredTasks [tAlpha, tBeta] "a" "all" = [tAlpha, tBeta] ∧
    filteredTasks [tAlpha, tBeta] "" "completed" = [] := by
  refine ⟨?_, by decide, by decide⟩
  unfold filteredTasks visibleSubsetSpec
  rcases h with h | h | h <;> subst h <;>
    exact List.filter_congr (fun x _ => by
      rcases x with ⟨i, ti, d, p, c, ca⟩
      cases c <;> rfl)

/-- Witness for C7 at the status value "all". -/
theorem filteredTasks_matches_spec_witness :
    filteredTasks ([] : List Task) "" "all" = visibleSubsetSpec [] "" "all" ∧
    filteredTasks [tAlpha, tBeta] "a" "all" = [tAlpha, tBeta] ∧
    filteredTasks [tAlpha, tBeta] "" "completed" = [] :=
  filteredTasks_matches_spec [] "" "all" (Or.inl rfl)

/-- C10: the completion percentage is 0 on the empty collection, the
division is only taken when the total is positive, and the result always
lies between 0 and 100. -/
theorem completionPercentage_guarded (tasks : List Task) :
    (tasks = [] → completionPercentage tasks = 0) ∧
    (tasks ≠ [] → 0 < (stats tasks).total) ∧
    (0 ≤ completionPercentage tasks ∧ completionPercentage tasks ≤ 100) := by
  have hct : (stats tasks).completed ≤ (stats tasks).total := by
    simpa [stats] using List.length_filter_le (fun t => t.completed) tasks
  have hq : (((stats tasks).completed : ℚ) / ((stats tasks).total : ℚ)) ≤ 1 := by
    rcases Nat.eq_zero_or_pos (stats tasks).total with h0 | h0
    · simp [h0]
    · rw [div_le_one (by exact_mod_cast h0)]
      exact_mod_cast hct
  refine ⟨?_, ?_, ?_, ?_⟩
  · intro he
    subst he
    rfl
  · intro hne
    simpa [stats] using List.length_pos.mpr hne
  · unfold completionPercentage
    split
    · apply Int.le_floor.mpr
      push_cast
      positivity
    · exact le_refl 0
  · unfold completionPercentage
    split
    · calc ⌊(((stats tasks).completed : ℚ) / ((stats tasks).total : ℚ)) * 100 + 1 / 2⌋
            ≤ ⌊(100 : ℚ) + 1 / 2⌋ := Int.floor_le_floor (by nlinarith)
        _ = 100 := by norm_num [Int.floor_eq_iff]
    · norm_num

/-- Witness for C10 on the empty and a one-element collection. -/
theorem completionPercentage_guarded_witness :
    completionPercentage ([] : List Task) = 0 ∧
    0 < (stats [tAlpha]).total ∧
    (0 ≤ completionPercentage [tAlpha] ∧ completionPercentage [tAlpha] ≤ 100) :=
  ⟨(completionPercentage_guarded []).1 rfl,
   (completionPercentage_guarded [tAlpha]).2.1 (List.cons_ne_nil _ _),
   (completionPercentage_guarded [tAlpha]).2.2⟩

end TaskMaster
